import Mathlib

/-!
Shallow embedding of the AudiophileNAS audio-repair pipeline
(detection/scanner_service.py, repair/repair_service.py, repair/tools/denoiser.py)
and verification of the specification claims about it.

Paths are strings; the SQLite ledger is a list of records with
unique-filepath insert semantics; the filesystem is an association list
from path to an abstract content token; the AI predictor and the external
ffmpeg denoiser are modelled by explicit outcome environments, while the
control flow around them is translated statement by statement from the
Python source.
-/

namespace AudioNAS

/-! ## Path helpers (os.path.basename / splitext / join / dirname) -/

/-- Model of os.path.basename: the longest slash-free suffix of the path. -/
def basename (s : String) : String :=
  String.mk ((s.toList.reverse.takeWhile (fun c => c != '/')).reverse)

/-- Model of os.path.splitext(name)[0] for a plain file name: everything up
to the last dot, unless every character before that dot is itself a dot. -/
def splitextRoot (s : String) : String :=
  let cs := s.toList
  let ext := cs.reverse.takeWhile (fun c => c != '.')
  if ext.length = cs.length then s
  else
    let root := cs.take (cs.length - ext.length - 1)
    if root.all (fun c => c == '.') then s else String.mk root

/-- First character of a string, if any. -/
def strHead (s : String) : Option Char := s.toList.head?

/-- Last character of a string, if any. -/
def strLastChar (s : String) : Option Char := s.toList.getLast?

/-- Model of os.path.join for two components with the slash separator. -/
def pathJoin (a b : String) : String :=
  if strHead b = some '/' then b
  else if a = "" then b
  else if strLastChar a = some '/' then a ++ b
  else a ++ "/" ++ b

/-- Model of os.path.dirname. -/
def dirname (s : String) : String :=
  let headRev := s.toList.reverse.dropWhile (fun c => c != '/')
  if headRev.all (fun c => c == '/') then String.mk headRev.reverse
  else String.mk ((headRev.dropWhile (fun c => c == '/')).reverse)

/-! ## Configuration constants of scanner_service.py -/

/-- Abstract project root directory (PROJECT_ROOT in scanner_service.py). -/
def PROJECT_ROOT : String := "/project"

/-- The watched ingestion directory (WATCH_DIR in scanner_service.py). -/
def WATCH_DIR : String := pathJoin PROJECT_ROOT ("downloads")

/-- The quarantine directory (QUARANTINE_DIR in scanner_service.py). -/
def QUARANTINE_DIR : String := pathJoin PROJECT_ROOT ("quarantine")

/-- The clean/dirty threshold (NOISE_THRESHOLD = 0.5 in scanner_service.py). -/
def NOISE_THRESHOLD : ℚ := 1/2

/-! ## The ledger (class Database over the scans table) -/

/-- One row of the scans table. -/
structure ScanRecord where
  filename : String
  filepath : String
  is_clean : Bool
  noise_score : ℚ
  metadata_status : String
  repair_status : String
deriving DecidableEq, Repr

/-- The scans table, in insertion order. -/
abbrev DB := List ScanRecord

/-- Database.is_scanned: whether some row has this filepath. -/
def is_scanned : DB → String → Bool
  | [], _ => false
  | r :: db, p => if r.filepath = p then true else is_scanned db p

/-- The row shape produced by the INSERT in Database.add_result. -/
def freshRecord (filepath : String) (is_clean : Bool) (score : ℚ) : ScanRecord :=
  { filename := basename filepath
    filepath := filepath
    is_clean := is_clean
    noise_score := score
    metadata_status := "PENDING"
    repair_status := "NONE" }

/-- Database.add_result: INSERT a fresh row; the UNIQUE constraint on
filepath turns a duplicate insert into a silently swallowed
IntegrityError, leaving the table unchanged. -/
def add_result (db : DB) (filepath : String) (is_clean : Bool) (score : ℚ) : DB :=
  if is_scanned db filepath then db
  else db ++ [freshRecord filepath is_clean score]

/-- Database.update_status for the metadata_status column. -/
def update_metadata_status (db : DB) (filepath status : String) : DB :=
  db.map (fun r => if r.filepath = filepath then { r with metadata_status := status } else r)

/-- Database.update_status for the repair_status column. -/
def update_repair_status (db : DB) (filepath status : String) : DB :=
  db.map (fun r => if r.filepath = filepath then { r with repair_status := status } else r)

/-- Row lookup by filepath (SELECT ... WHERE filepath = ?). -/
def findRecord : DB → String → Option ScanRecord
  | [], _ => none
  | r :: db, p => if r.filepath = p then some r else findRecord db p

/-- The repair_status of the row for a path, if any. -/
def dbRepairStatus (db : DB) (p : String) : Option String :=
  (findRecord db p).map ScanRecord.repair_status

/-- The metadata_status of the row for a path, if any. -/
def dbMetadataStatus (db : DB) (p : String) : Option String :=
  (findRecord db p).map ScanRecord.metadata_status

/-- Number of rows whose filepath is p. -/
def countRecords : DB → String → Nat
  | [], _ => 0
  | r :: db, p => (if r.filepath = p then 1 else 0) + countRecords db p

/-! ## The filesystem, as a finite map from paths to content tokens -/

/-- A filesystem: association list from path to abstract file content. -/
abbrev FS := List (String × Nat)

/-- Content of the file at a path, if it exists. -/
def fsGet : FS → String → Option Nat
  | [], _ => none
  | e :: fs, p => if e.1 = p then some e.2 else fsGet fs p

/-- os.path.exists. -/
def fsExists (fs : FS) (p : String) : Bool := (fsGet fs p).isSome

/-- os.remove (a no-op here when the file is absent; call sites guard it
with os.path.exists). -/
def fsRemove : FS → String → FS
  | [], _ => []
  | e :: fs, p => if e.1 = p then fsRemove fs p else e :: fsRemove fs p

/-- Create or overwrite a file. -/
def fsSet (fs : FS) (p : String) (c : Nat) : FS := fsRemove fs p ++ [(p, c)]

/-- shutil.move: on success the destination is replaced by the source
content and the source disappears; moving a missing source is a no-op
state-wise (the raising case is handled by the callers' except blocks). -/
def fsMove (fs : FS) (src dst : String) : FS :=
  match fsGet fs src with
  | none => fs
  | some c => fsSet (fsRemove fs src) dst c

/-! ## The AI predictor (class AudioPredictor) -/

instance exceptDecEq {ε α : Type} [DecidableEq ε] [DecidableEq α] :
    DecidableEq (Except ε α) := fun a b =>
  match a, b with
  | Except.ok x, Except.ok y =>
    if h : x = y then isTrue (h ▸ rfl) else isFalse (fun he => h (Except.ok.inj he))
  | Except.error x, Except.error y =>
    if h : x = y then isTrue (h ▸ rfl) else isFalse (fun he => h (Except.error.inj he))
  | Except.ok _, Except.error _ => isFalse (fun he => Except.noConfusion he)
  | Except.error _, Except.ok _ => isFalse (fun he => Except.noConfusion he)

/-- Environment describing one run of AudioPredictor on one file:
whether preprocess produced input data (librosa load plus mel pipeline is
wrapped in try/except and returns None on any failure, and also returns
None on a flat spectrogram), and what the unguarded TFLite invoke plus
get_tensor chain does with that data (a score, or a raised exception). -/
structure PredictEnv where
  preprocessResult : Option Unit
  interpreterScore : Except Unit ℚ
deriving DecidableEq

/-- AudioPredictor.predict: if preprocess returned None the method returns
1.0; otherwise the interpreter chain runs with no surrounding try/except,
so an exception there propagates to the caller. -/
def predict (env : PredictEnv) : Except Unit ℚ :=
  match env.preprocessResult with
  | none => Except.ok 1
  | some _ => env.interpreterScore

/-! ## The external denoiser (class AudioDenoiser, denoiser.py) -/

/-- The keyword-relevant shape of a subprocess.run invocation. -/
structure SubprocessCall where
  cmd : List String
  capture_output : Bool
  text : Bool
  timeout : Option Nat
deriving DecidableEq

/-- The afftdn filter argument built by the f-string in reduce_noise. -/
def afftdn_filter (noise_reduction_db : Int) : String :=
  "afftdn=nr=" ++ toString noise_reduction_db ++ ":nf=-25:tn=1"

/-- The argv list built by AudioDenoiser.reduce_noise. -/
def reduce_noise_cmd (input_path output_path : String) (noise_reduction_db : Int) : List String :=
  ["ffmpeg", "-y", "-v", "error", "-i", input_path,
   "-af", afftdn_filter noise_reduction_db,
   "-c:a", "flac", output_path]

/-- The subprocess.run call issued by AudioDenoiser.reduce_noise with the
default noise_reduction_db of 12: capture_output and text are passed,
and no timeout keyword is passed, so subprocess.run runs with its default
timeout of None. -/
def reduce_noise_call (input_path output_path : String) : SubprocessCall :=
  { cmd := reduce_noise_cmd input_path output_path 12
    capture_output := true
    text := true
    timeout := none }

/-- Outcome of one ffmpeg run: whether the process exited with code 0 and
no exception was raised (success), whether it produced the output file,
and that file's content. A nonzero exit may still leave a partial output
file behind, which the caller is responsible for cleaning up. -/
structure DenoiseOutcome where
  success : Bool
  wrote : Bool
  content : Nat
deriving DecidableEq

/-- Filesystem effect and boolean result of AudioDenoiser.reduce_noise:
ffmpeg reads input_path and only ever writes output_path; the method
returns True exactly when the process exited 0, and False on a nonzero
exit or on a raised exception (the whole call is inside try/except). -/
def reduce_noise (fs : FS) (outcome : DenoiseOutcome) (output_path : String) : Bool × FS :=
  (outcome.success, if outcome.wrote then fsSet fs output_path outcome.content else fs)

/-! ## The repair service (class RepairService, repair_service.py) -/

/-- State of a constructed RepairService: the two configured directories,
whether the AudioDenoiser was constructed (False when the ffmpeg binary
was missing and the EnvironmentError was caught, leaving denoiser None),
and the derived workspace directory. -/
structure RepairService where
  quarantine_dir : String
  output_dir : String
  denoiser : Bool
  temp_work_dir : String
deriving DecidableEq

/-- RepairService constructor: stores the directories, tries to build the
AudioDenoiser (which raises iff ffmpeg is not on the path), and derives
the workspace directory next to the quarantine directory. -/
def mkRepairService (quarantine_dir output_dir : String) (ffmpegOnPath : Bool) : RepairService :=
  { quarantine_dir := quarantine_dir
    output_dir := output_dir
    denoiser := ffmpegOnPath
    temp_work_dir := pathJoin (dirname quarantine_dir) ("repair_workspace") }

/-- The derived workspace file name for an input file (enforced .flac). -/
def work_filename (file_path : String) : String :=
  "repaired_" ++ splitextRoot (basename file_path) ++ ".flac"

/-- The workspace output path derived by repair_file. -/
def workPath (svc : RepairService) (file_path : String) : String :=
  pathJoin svc.temp_work_dir (work_filename file_path)

/-- Per-call environment of repair_file: the denoiser outcome, and whether
the final shutil.move to the output directory succeeds. -/
structure RepairEnv where
  denoise : DenoiseOutcome
  move_ok : Bool
deriving DecidableEq

/-- RepairService.repair_file, translated clause by clause: bail out when
the denoiser is unavailable; run the denoiser into the workspace path; on
success with an existing workspace file, move it to the output directory
(deleting the stuck workspace file when the move raises); otherwise delete
any workspace artifact. Returns the final destination on success, None on
any failure, paired with the resulting filesystem. -/
def repair_file (svc : RepairService) (env : RepairEnv) (fs : FS) (file_path : String) :
    Option String × FS :=
  if svc.denoiser = false then (none, fs)
  else
    let wfp := workPath svc file_path
    let step := reduce_noise fs env.denoise wfp
    if step.1 && fsExists step.2 wfp then
      let final_dest := pathJoin svc.output_dir (work_filename file_path)
      if env.move_ok then (some final_dest, fsMove step.2 wfp final_dest)
      else (none, fsRemove step.2 wfp)
    else (none, fsRemove step.2 wfp)

/-! ## The watcher handler (class NewFileHandler, scanner_service.py) -/

/-- NewFileHandler state: the repair service, or None when the import or
construction of RepairService failed at startup. (The database handle and
predictor are threaded explicitly below.) -/
structure Handler where
  repair_service : Option RepairService
deriving DecidableEq

/-- Per-call environment of process_file: the predictor run for this file,
whether another worker inserts the same result between the is_scanned
check and add_result (the creation race; the racing worker runs the same
deterministic code on the same file), whether the metadata-repair
subprocess succeeds, whether the shutil.move to quarantine raises, and
the repair_file environment. -/
structure ScanEnv where
  predictEnv : PredictEnv
  raceInsert : Bool
  metadataOk : Bool
  quarantineRaises : Bool
  repairEnv : RepairEnv
deriving DecidableEq

/-- Combined ledger and filesystem state. -/
structure SysState where
  db : DB
  fs : FS
deriving DecidableEq

/-- NewFileHandler.move_to_quarantine: join QUARANTINE_DIR with the base
name of the file and shutil.move the file there; any exception is caught
and logged and the method returns None with the filesystem unchanged. -/
def move_to_quarantine (fs : FS) (raises : Bool) (filepath : String) : Option String × FS :=
  if raises then (none, fs)
  else
    let dest := pathJoin QUARANTINE_DIR (basename filepath)
    (some dest, fsMove fs filepath dest)

/-- The clean branch of process_file: run the metadata-repair subprocess
and record COMPLETED or FAILED. -/
def clean_branch (env : ScanEnv) (db1 : DB) (fs : FS) (filepath : String) : SysState :=
  if env.metadataOk then ⟨update_metadata_status db1 filepath ("COMPLETED"), fs⟩
  else ⟨update_metadata_status db1 filepath ("FAILED"), fs⟩

/-- The dirty branch of process_file: set repair_status NEEDED, move the
file to quarantine, and when both the move returned a path and a repair
service exists, call repair_file on the quarantined copy and record FIXED
or UNFIXABLE on the original filepath. -/
def dirty_branch (h : Handler) (env : ScanEnv) (db1 : DB) (fs : FS) (filepath : String) :
    SysState :=
  let db2 := update_repair_status db1 filepath ("NEEDED")
  let mq := move_to_quarantine fs env.quarantineRaises filepath
  match mq.1, h.repair_service with
  | some qpath, some svc =>
    let rr := repair_file svc env.repairEnv mq.2 qpath
    match rr.1 with
    | some _ => ⟨update_repair_status db2 filepath ("FIXED"), rr.2⟩
    | none => ⟨update_repair_status db2 filepath ("UNFIXABLE"), rr.2⟩
  | _, _ => ⟨db2, mq.2⟩

/-- NewFileHandler.process_file: skip files already in the ledger; score
the file (an exception from the unguarded interpreter chain propagates out
of process_file); classify against NOISE_THRESHOLD; insert the result
(with the optional racing insert of the same result by another worker just
before it); then run the clean or dirty branch. -/
def process_file (h : Handler) (env : ScanEnv) (s : SysState) (filepath : String) :
    Except Unit SysState :=
  if is_scanned s.db filepath then Except.ok s
  else
    match predict env.predictEnv with
    | Except.error e => Except.error e
    | Except.ok score =>
      let is_clean : Bool := decide (score < NOISE_THRESHOLD)
      let db0 := if env.raceInsert then add_result s.db filepath is_clean score else s.db
      let db1 := add_result db0 filepath is_clean score
      if is_clean then Except.ok (clean_branch env db1 s.fs filepath)
      else Except.ok (dirty_branch h env db1 s.fs filepath)

/-- The RepairService as configured by the main block of
scanner_service.py: quarantine directory and output directory are the
global QUARANTINE_DIR and WATCH_DIR. -/
def main_repair_service (ffmpegOnPath : Bool) : RepairService :=
  mkRepairService QUARANTINE_DIR WATCH_DIR ffmpegOnPath

/-- Invariant of the scans table: no row ever stores NONE in
metadata_status, and every dirty row (is_clean false) still has the
initial PENDING metadata_status. -/
def DBInv (db : DB) : Prop :=
  ∀ r ∈ db, r.metadata_status ≠ "NONE" ∧ (r.is_clean = false → r.metadata_status = "PENDING")

/-! ## String and path lemmas -/

theorem toList_mk (l : List Char) : (String.mk l).toList = l := rfl

theorem mk_toList (s : String) : String.mk s.toList = s := by cases s; rfl

theorem toList_append (a b : String) : (a ++ b).toList = a.toList ++ b.toList := by
  cases a; cases b; rfl

theorem takeWhile_append_stop (p : Char → Bool) (y : Char) (ys : List Char)
    (hy : p y = false) :
    ∀ xs : List Char, (∀ x ∈ xs, p x = true) → List.takeWhile p (xs ++ y :: ys) = xs
  | [] => fun _ => by simp [List.takeWhile_cons, hy]
  | a :: xs => fun h => by
    have ha : p a = true := h a (List.mem_cons_self a xs)
    have ih := takeWhile_append_stop p y ys hy xs (fun x hx => h x (List.mem_cons_of_mem a hx))
    simp [List.takeWhile_cons, ha, ih]

theorem basename_no_slash (s : String) : ∀ c ∈ (basename s).toList, c ≠ '/' := by
  intro c hc
  simp only [basename, toList_mk, List.mem_reverse] at hc
  have := List.mem_takeWhile_imp hc
  simpa using this

theorem basename_append (d n : String) (hn : ∀ c ∈ n.toList, c ≠ '/') :
    basename (d ++ "/" ++ n) = n := by
  unfold basename
  have hslash : ("/" : String).toList = ['/'] := by decide
  have h1 : (d ++ "/" ++ n).toList = d.toList ++ '/' :: n.toList := by
    rw [toList_append, toList_append, hslash]; simp
  rw [h1]
  have h2 : (d.toList ++ '/' :: n.toList).reverse
      = n.toList.reverse ++ '/' :: d.toList.reverse := by
    simp
  rw [h2, takeWhile_append_stop _ _ _ (by decide) _
        (fun x hx => by simpa using hn x (List.mem_reverse.mp hx)),
      List.reverse_reverse, mk_toList]

theorem head_mem_of_strHead {n : String} {c : Char} (h : strHead n = some c) :
    c ∈ n.toList := by
  unfold strHead at h
  cases hl : n.toList with
  | nil => rw [hl] at h; simp at h
  | cons a l => rw [hl] at h; simp at h; simp [h]

theorem pathJoin_eq (d n : String) (hd : d ≠ "") (hl : strLastChar d ≠ some '/')
    (hn : ∀ c ∈ n.toList, c ≠ '/') :
    pathJoin d n = d ++ "/" ++ n := by
  unfold pathJoin
  rw [if_neg, if_neg hd, if_neg hl]
  intro h
  exact hn '/' (head_mem_of_strHead h) rfl

theorem basename_pathJoin (d n : String) (hd : d ≠ "") (hl : strLastChar d ≠ some '/')
    (hn : ∀ c ∈ n.toList, c ≠ '/') :
    basename (pathJoin d n) = n := by
  rw [pathJoin_eq d n hd hl hn, basename_append d n hn]

theorem no_slash_append {a b : String} (ha : ∀ c ∈ a.toList, c ≠ '/')
    (hb : ∀ c ∈ b.toList, c ≠ '/') : ∀ c ∈ (a ++ b).toList, c ≠ '/' := by
  intro c hc
  rw [toList_append, List.mem_append] at hc
  cases hc with
  | inl h => exact ha c h
  | inr h => exact hb c h

theorem splitextRoot_no_slash (s : String) (hs : ∀ c ∈ s.toList, c ≠ '/') :
    ∀ c ∈ (splitextRoot s).toList, c ≠ '/' := by
  intro c hc
  simp only [splitextRoot] at hc
  split at hc
  · exact hs c hc
  · split at hc
    · exact hs c hc
    · rw [toList_mk] at hc
      exact hs c (List.mem_of_mem_take hc)

theorem work_filename_no_slash (f : String) :
    ∀ c ∈ (work_filename f).toList, c ≠ '/' := by
  unfold work_filename
  exact no_slash_append
    (no_slash_append (by decide)
      (splitextRoot_no_slash (basename f) (basename_no_slash f)))
    (by decide)

theorem take10_append (a x : String) (ha : 10 ≤ a.toList.length) :
    (a ++ x).toList.take 10 = a.toList.take 10 := by
  rw [toList_append, List.take_append_of_le_length ha]

theorem quarantine_ne_workspace (x y : String) :
    "/project/quarantine/" ++ x ≠ "/project/repair_workspace/" ++ y := by
  intro h
  have h10 := congrArg (fun s => List.take 10 (String.toList s)) h
  dsimp only at h10
  rw [take10_append _ _ (by decide), take10_append _ _ (by decide)] at h10
  exact absurd h10 (by decide)

theorem quarantine_ne_downloads (x y : String) :
    "/project/quarantine/" ++ x ≠ "/project/downloads/" ++ y := by
  intro h
  have h10 := congrArg (fun s => List.take 10 (String.toList s)) h
  dsimp only at h10
  rw [take10_append _ _ (by decide), take10_append _ _ (by decide)] at h10
  exact absurd h10 (by decide)

theorem workspace_ne_downloads (x y : String) :
    "/project/repair_workspace/" ++ x ≠ "/project/downloads/" ++ y := by
  intro h
  have h10 := congrArg (fun s => List.take 10 (String.toList s)) h
  dsimp only at h10
  rw [take10_append _ _ (by decide), take10_append _ _ (by decide)] at h10
  exact absurd h10 (by decide)

theorem quarantine_join (n : String) (hn : ∀ c ∈ n.toList, c ≠ '/') :
    pathJoin QUARANTINE_DIR n = "/project/quarantine/" ++ n := by
  have hq : QUARANTINE_DIR = "/project/quarantine" := by decide
  rw [hq, pathJoin_eq _ _ (by decide) (by decide) hn]
  have h : ("/project/quarantine" ++ "/" : String) = "/project/quarantine/" := by decide
  rw [h]

theorem downloads_join (n : String) (hn : ∀ c ∈ n.toList, c ≠ '/') :
    pathJoin WATCH_DIR n = "/project/downloads/" ++ n := by
  have hw : WATCH_DIR = "/project/downloads" := by decide
  rw [hw, pathJoin_eq _ _ (by decide) (by decide) hn]
  have h : ("/project/downloads" ++ "/" : String) = "/project/downloads/" := by decide
  rw [h]

theorem main_temp_work_dir (f : Bool) :
    (main_repair_service f).temp_work_dir = "/project/repair_workspace" := by
  cases f <;> decide

theorem main_workPath (f : Bool) (q : String) :
    workPath (main_repair_service f) q = "/project/repair_workspace/" ++ work_filename q := by
  unfold workPath
  rw [main_temp_work_dir, pathJoin_eq _ _ (by decide) (by decide) (work_filename_no_slash q)]
  have h : ("/project/repair_workspace" ++ "/" : String) = "/project/repair_workspace/" := by
    decide
  rw [h]

/-! ## Filesystem lemmas -/

theorem fsGet_fsRemove_self (fs : FS) (p : String) : fsGet (fsRemove fs p) p = none := by
  induction fs with
  | nil => rfl
  | cons e fs ih =>
    by_cases h : e.1 = p <;> simp [fsRemove, fsGet, h, ih]

theorem fsGet_fsRemove_ne (fs : FS) (p q : String) (h : q ≠ p) :
    fsGet (fsRemove fs p) q = fsGet fs q := by
  induction fs with
  | nil => rfl
  | cons e fs ih =>
    by_cases he : e.1 = p
    · by_cases hq : e.1 = q
      · exact absurd (he.symm.trans hq) (fun hc => h hc.symm)
      · simp [fsRemove, fsGet, he, hq, ih, Ne.symm h]
    · by_cases hq : e.1 = q <;> simp [fsRemove, fsGet, he, hq, ih, h]

theorem fsGet_append (l₁ l₂ : FS) (q : String) :
    fsGet (l₁ ++ l₂) q = match fsGet l₁ q with
      | some c => some c
      | none => fsGet l₂ q := by
  induction l₁ with
  | nil => rfl
  | cons e l₁ ih =>
    by_cases h : e.1 = q <;> simp [fsGet, h, ih]

theorem fsGet_fsSet_self (fs : FS) (p : String) (c : Nat) :
    fsGet (fsSet fs p c) p = some c := by
  simp [fsSet, fsGet_append, fsGet_fsRemove_self, fsGet]

theorem fsGet_fsSet_ne (fs : FS) (p q : String) (c : Nat) (h : q ≠ p) :
    fsGet (fsSet fs p c) q = fsGet fs q := by
  rw [fsSet, fsGet_append, fsGet_fsRemove_ne fs p q h]
  cases hg : fsGet fs q with
  | some c0 => rfl
  | none => simp [fsGet, Ne.symm h]

theorem fsGet_fsMove_dst (fs : FS) (src dst : String) (c : Nat)
    (h : fsGet fs src = some c) : fsGet (fsMove fs src dst) dst = some c := by
  rw [fsMove, h, fsGet_fsSet_self]

theorem fsGet_fsMove_src (fs : FS) (src dst : String) (h : src ≠ dst) :
    fsGet (fsMove fs src dst) src = none := by
  rw [fsMove]
  cases hg : fsGet fs src with
  | none => exact hg
  | some c => rw [fsGet_fsSet_ne _ _ _ _ h, fsGet_fsRemove_self]

theorem fsGet_fsMove_other (fs : FS) (src dst q : String) (hs : q ≠ src) (hd : q ≠ dst) :
    fsGet (fsMove fs src dst) q = fsGet fs q := by
  rw [fsMove]
  cases hg : fsGet fs src with
  | none => rfl
  | some c => rw [fsGet_fsSet_ne _ _ _ _ hd, fsGet_fsRemove_ne _ _ _ hs]

/-! ## Ledger lemmas -/

theorem is_scanned_append (db₁ db₂ : DB) (p : String) :
    is_scanned (db₁ ++ db₂) p = (is_scanned db₁ p || is_scanned db₂ p) := by
  induction db₁ with
  | nil => rfl
  | cons r db₁ ih =>
    by_cases h : r.filepath = p <;> simp [is_scanned, h, ih]

theorem is_scanned_singleton_fresh (p : String) (b : Bool) (sc : ℚ) :
    is_scanned [freshRecord p b sc] p = true := by
  simp [is_scanned, freshRecord]

theorem is_scanned_add_result_self (db : DB) (p : String) (b : Bool) (sc : ℚ) :
    is_scanned (add_result db p b sc) p = true := by
  rw [add_result]
  by_cases h : is_scanned db p
  · rw [if_pos h]; exact h
  · rw [if_neg h, is_scanned_append, is_scanned_singleton_fresh, Bool.or_true]

theorem is_scanned_map_preserve (db : DB) (p : String) (f : ScanRecord → ScanRecord)
    (hf : ∀ r, (f r).filepath = r.filepath) :
    is_scanned (db.map f) p = is_scanned db p := by
  induction db with
  | nil => rfl
  | cons r db ih =>
    rw [List.map_cons]
    by_cases h : r.filepath = p <;> simp [is_scanned, hf r, h, ih]

theorem update_repair_filepath (q st : String) :
    ∀ r : ScanRecord,
      ((fun r => if r.filepath = q then { r with repair_status := st } else r) r).filepath
        = r.filepath := by
  intro r
  by_cases h : r.filepath = q <;> simp [h]

theorem update_metadata_filepath (q st : String) :
    ∀ r : ScanRecord,
      ((fun r => if r.filepath = q then { r with metadata_status := st } else r) r).filepath
        = r.filepath := by
  intro r
  by_cases h : r.filepath = q <;> simp [h]

theorem is_scanned_update_repair (db : DB) (p q st : String) :
    is_scanned (update_repair_status db q st) p = is_scanned db p :=
  is_scanned_map_preserve db p _ (update_repair_filepath q st)

theorem is_scanned_update_metadata (db : DB) (p q st : String) :
    is_scanned (update_metadata_status db q st) p = is_scanned db p :=
  is_scanned_map_preserve db p _ (update_metadata_filepath q st)

theorem findRecord_not_scanned (db : DB) (p : String) (h : is_scanned db p = false) :
    findRecord db p = none := by
  induction db with
  | nil => rfl
  | cons r db ih =>
    by_cases hr : r.filepath = p
    · simp [is_scanned, hr] at h
    · simp only [is_scanned, if_neg hr] at h
      simp [findRecord, hr, ih h]

theorem findRecord_append (db₁ db₂ : DB) (p : String) :
    findRecord (db₁ ++ db₂) p = match findRecord db₁ p with
      | some r => some r
      | none => findRecord db₂ p := by
  induction db₁ with
  | nil => rfl
  | cons r db₁ ih =>
    by_cases h : r.filepath = p <;> simp [findRecord, h, ih]

theorem findRecord_add_result_fresh (db : DB) (p : String) (b : Bool) (sc : ℚ)
    (h : is_scanned db p = false) :
    findRecord (add_result db p b sc) p = some (freshRecord p b sc) := by
  rw [add_result, if_neg (by rw [h]; exact Bool.false_ne_true), findRecord_append,
      findRecord_not_scanned db p h]
  simp [findRecord, freshRecord]

theorem findRecord_update_repair_self (db : DB) (p st : String) :
    findRecord (update_repair_status db p st) p
      = (findRecord db p).map (fun r => { r with repair_status := st }) := by
  induction db with
  | nil => rfl
  | cons r db ih =>
    by_cases h : r.filepath = p <;>
      simp [update_repair_status, findRecord, h, ← ih, update_repair_status]

theorem findRecord_update_metadata_self (db : DB) (p st : String) :
    findRecord (update_metadata_status db p st) p
      = (findRecord db p).map (fun r => { r with metadata_status := st }) := by
  induction db with
  | nil => rfl
  | cons r db ih =>
    by_cases h : r.filepath = p <;>
      simp [update_metadata_status, findRecord, h, ← ih, update_metadata_status]

theorem countRecords_append (db₁ db₂ : DB) (p : String) :
    countRecords (db₁ ++ db₂) p = countRecords db₁ p + countRecords db₂ p := by
  induction db₁ with
  | nil => simp [countRecords]
  | cons r db₁ ih =>
    simp [countRecords, ih, Nat.add_assoc]

theorem countRecords_not_scanned (db : DB) (p : String) (h : is_scanned db p = false) :
    countRecords db p = 0 := by
  induction db with
  | nil => rfl
  | cons r db ih =>
    by_cases hr : r.filepath = p
    · simp [is_scanned, hr] at h
    · simp only [is_scanned, if_neg hr] at h
      simp [countRecords, hr, ih h]

theorem countRecords_map_preserve (db : DB) (p : String) (f : ScanRecord → ScanRecord)
    (hf : ∀ r, (f r).filepath = r.filepath) :
    countRecords (db.map f) p = countRecords db p := by
  induction db with
  | nil => rfl
  | cons r db ih =>
    simp [countRecords, hf r, ih]

theorem mem_add_result (db : DB) (p : String) (b : Bool) (sc : ℚ) (r : ScanRecord)
    (h : r ∈ add_result db p b sc) : r ∈ db ∨ r = freshRecord p b sc := by
  rw [add_result] at h
  by_cases hs : is_scanned db p
  · rw [if_pos hs] at h; exact Or.inl h
  · rw [if_neg hs] at h
    rcases List.mem_append.mp h with h1 | h1
    · exact Or.inl h1
    · exact Or.inr (List.mem_singleton.mp h1)

theorem not_scanned_filepath_ne (db : DB) (p : String) (h : is_scanned db p = false)
    (r : ScanRecord) (hr : r ∈ db) : r.filepath ≠ p := by
  induction db with
  | nil => exact absurd hr (List.not_mem_nil r)
  | cons r0 db ih =>
    by_cases h0 : r0.filepath = p
    · simp [is_scanned, h0] at h
    · simp only [is_scanned, if_neg h0] at h
      rcases List.mem_cons.mp hr with h1 | h1
      · rw [h1]; exact h0
      · exact ih h h1

theorem add_result_idem (db : DB) (p : String) (b : Bool) (sc : ℚ) :
    add_result (add_result db p b sc) p b sc = add_result db p b sc := by
  rw [add_result, if_pos (is_scanned_add_result_self db p b sc)]

theorem countRecords_update_repair (db : DB) (p q st : String) :
    countRecords (update_repair_status db q st) p = countRecords db p :=
  countRecords_map_preserve db p _ (update_repair_filepath q st)

theorem countRecords_update_metadata (db : DB) (p q st : String) :
    countRecords (update_metadata_status db q st) p = countRecords db p :=
  countRecords_map_preserve db p _ (update_metadata_filepath q st)

theorem countRecords_add_result_new (db : DB) (p : String) (b : Bool) (sc : ℚ)
    (h : is_scanned db p = false) : countRecords (add_result db p b sc) p = 1 := by
  rw [add_result, if_neg (by rw [h]; exact Bool.false_ne_true), countRecords_append,
      countRecords_not_scanned db p h]
  simp [countRecords, freshRecord]

/-! ## Branch characterization lemmas for process_file -/

theorem clean_branch_db (env : ScanEnv) (db1 : DB) (fs : FS) (p : String) :
    (clean_branch env db1 fs p).db
      = update_metadata_status db1 p (if env.metadataOk then "COMPLETED" else "FAILED") := by
  by_cases hm : env.metadataOk <;> simp [clean_branch, hm]

theorem clean_branch_fs (env : ScanEnv) (db1 : DB) (fs : FS) (p : String) :
    (clean_branch env db1 fs p).fs = fs := by
  by_cases hm : env.metadataOk <;> simp [clean_branch, hm]

theorem dirty_branch_db_cases (h : Handler) (env : ScanEnv) (db1 : DB) (fs : FS) (p : String) :
    (dirty_branch h env db1 fs p).db = update_repair_status db1 p ("NEEDED")
    ∨ (dirty_branch h env db1 fs p).db
        = update_repair_status (update_repair_status db1 p ("NEEDED")) p ("FIXED")
    ∨ (dirty_branch h env db1 fs p).db
        = update_repair_status (update_repair_status db1 p ("NEEDED")) p ("UNFIXABLE") := by
  rw [dirty_branch]
  rcases hrs : h.repair_service with _ | svc
  · rcases hmq : (move_to_quarantine fs env.quarantineRaises p).1 with _ | qpath <;> simp
  · rcases hmq : (move_to_quarantine fs env.quarantineRaises p).1 with _ | qpath
    · simp
    · rcases hrr : (repair_file svc env.repairEnv (move_to_quarantine fs env.quarantineRaises p).2 qpath).1 with _ | out <;>
        simp [hrr]

theorem is_scanned_dirty_branch (h : Handler) (env : ScanEnv) (db1 : DB) (fs : FS)
    (p q : String) :
    is_scanned (dirty_branch h env db1 fs p).db q = is_scanned db1 q := by
  rcases dirty_branch_db_cases h env db1 fs p with hd | hd | hd <;>
    rw [hd] <;> simp [is_scanned_update_repair]

theorem is_scanned_clean_branch (env : ScanEnv) (db1 : DB) (fs : FS) (p q : String) :
    is_scanned (clean_branch env db1 fs p).db q = is_scanned db1 q := by
  rw [clean_branch_db, is_scanned_update_metadata]

theorem countRecords_dirty_branch (h : Handler) (env : ScanEnv) (db1 : DB) (fs : FS)
    (p q : String) :
    countRecords (dirty_branch h env db1 fs p).db q = countRecords db1 q := by
  rcases dirty_branch_db_cases h env db1 fs p with hd | hd | hd <;>
    rw [hd] <;> simp [countRecords_update_repair]

theorem countRecords_clean_branch (env : ScanEnv) (db1 : DB) (fs : FS) (p q : String) :
    countRecords (clean_branch env db1 fs p).db q = countRecords db1 q := by
  rw [clean_branch_db, countRecords_update_metadata]

/-! ## Evaluation lemmas for process_file -/

theorem process_file_scanned (h : Handler) (env : ScanEnv) (s : SysState) (p : String)
    (hs : is_scanned s.db p = true) : process_file h env s p = Except.ok s := by
  rw [process_file, if_pos hs]

theorem process_file_error_eq (h : Handler) (env : ScanEnv) (s : SysState) (p : String)
    (e : Unit) (hs : is_scanned s.db p = false)
    (hp : predict env.predictEnv = Except.error e) :
    process_file h env s p = Except.error e := by
  rw [process_file, if_neg (by rw [hs]; exact Bool.false_ne_true), hp]

theorem db1_eq (db : DB) (race : Bool) (p : String) (b : Bool) (sc : ℚ) :
    add_result (if race then add_result db p b sc else db) p b sc
      = add_result db p b sc := by
  cases race
  · simp
  · simp [add_result_idem]

theorem process_file_clean_eq (h : Handler) (env : ScanEnv) (s : SysState) (p : String)
    (score : ℚ) (hs : is_scanned s.db p = false)
    (hp : predict env.predictEnv = Except.ok score) (hc : score < NOISE_THRESHOLD) :
    process_file h env s p
      = Except.ok (clean_branch env (add_result s.db p true score) s.fs p) := by
  rw [process_file, if_neg (by rw [hs]; exact Bool.false_ne_true), hp]
  simp only [hc, decide_true_eq_true, decide_eq_true_eq, if_true]
  rw [db1_eq]

theorem process_file_dirty_eq (h : Handler) (env : ScanEnv) (s : SysState) (p : String)
    (score : ℚ) (hs : is_scanned s.db p = false)
    (hp : predict env.predictEnv = Except.ok score) (hc : ¬ score < NOISE_THRESHOLD) :
    process_file h env s p
      = Except.ok (dirty_branch h env (add_result s.db p false score) s.fs p) := by
  rw [process_file, if_neg (by rw [hs]; exact Bool.false_ne_true), hp]
  simp only [hc, decide_false_eq_false, decide_eq_true_eq, if_false]
  rw [db1_eq, if_neg (by simp)]

theorem findRecord_dirty_branch (h : Handler) (env : ScanEnv) (db1 : DB) (fs : FS)
    (p : String) (r : ScanRecord) (hf : findRecord db1 p = some r) :
    findRecord (dirty_branch h env db1 fs p).db p
        = some { r with repair_status := ("NEEDED") }
    ∨ findRecord (dirty_branch h env db1 fs p).db p
        = some { r with repair_status := ("FIXED") }
    ∨ findRecord (dirty_branch h env db1 fs p).db p
        = some { r with repair_status := ("UNFIXABLE") } := by
  rcases dirty_branch_db_cases h env db1 fs p with hd | hd | hd
  · left
    rw [hd, findRecord_update_repair_self, hf]
    rfl
  · right; left
    rw [hd, findRecord_update_repair_self, findRecord_update_repair_self, hf]
    rfl
  · right; right
    rw [hd, findRecord_update_repair_self, findRecord_update_repair_self, hf]
    rfl

theorem DBInv_add_result (db : DB) (p : String) (b : Bool) (sc : ℚ) (hinv : DBInv db) :
    DBInv (add_result db p b sc) := by
  intro r hr
  rcases mem_add_result db p b sc r hr with hmem | hfresh
  · exact hinv r hmem
  · subst hfresh
    exact ⟨show ("PENDING" : String) ≠ "NONE" by decide, fun _ => rfl⟩

theorem DBInv_update_repair (db : DB) (p st : String) (hinv : DBInv db) :
    DBInv (update_repair_status db p st) := by
  intro r hr
  rw [update_repair_status] at hr
  rcases List.mem_map.mp hr with ⟨r₀, hr₀, heq⟩
  by_cases h : r₀.filepath = p
  · rw [if_pos h] at heq
    subst heq
    exact ⟨(hinv r₀ hr₀).1, fun hcl => (hinv r₀ hr₀).2 hcl⟩
  · rw [if_neg h] at heq
    subst heq
    exact hinv r₀ hr₀

theorem DBInv_update_metadata_ne_none (db : DB) (p st : String) (hst : st ≠ "NONE")
    (hclean : ∀ r ∈ db, r.filepath = p → r.is_clean = true) (hinv : DBInv db) :
    DBInv (update_metadata_status db p st) := by
  intro r hr
  rw [update_metadata_status] at hr
  rcases List.mem_map.mp hr with ⟨r₀, hr₀, heq⟩
  by_cases h : r₀.filepath = p
  · rw [if_pos h] at heq
    subst heq
    refine ⟨hst, fun hcl => ?_⟩
    exact absurd ((hclean r₀ hr₀ h).symm.trans hcl) (by decide)
  · rw [if_neg h] at heq
    subst heq
    exact hinv r₀ hr₀

theorem add_result_clean_only (db : DB) (p : String) (sc : ℚ)
    (hs : is_scanned db p = false) :
    ∀ r ∈ add_result db p true sc, r.filepath = p → r.is_clean = true := by
  intro r hr hrp
  rcases mem_add_result db p true sc r hr with hmem | hfresh
  · exact absurd hrp (not_scanned_filepath_ne db p hs r hmem)
  · subst hfresh
    rfl

theorem repair_file_success_eq (svc : RepairService) (d : Nat) (fs : FS) (q : String)
    (hden : svc.denoiser = true) :
    repair_file svc ⟨⟨true, true, d⟩, true⟩ fs q
      = (some (pathJoin svc.output_dir (work_filename q)),
         fsMove (fsSet fs (workPath svc q) d) (workPath svc q)
           (pathJoin svc.output_dir (work_filename q))) := by
  rw [repair_file, if_neg (by rw [hden]; exact fun hf => Bool.noConfusion hf)]
  have hex : fsExists (fsSet fs (workPath svc q) d) (workPath svc q) = true := by
    rw [fsExists, fsGet_fsSet_self]
    rfl
  simp [reduce_noise, hex]

/-! ## Claim theorems -/

/-- C5: the subprocess.run invocation of ffmpeg inside
AudioDenoiser.reduce_noise passes no timeout argument at all, for every
input and output path, so the external call is unbounded and the
spec-required timeout guard does not exist in the code. -/
theorem reduce_noise_run_without_timeout :
    ∀ input_path output_path : String,
      (reduce_noise_call input_path output_path).timeout = none :=
  fun _ _ => rfl

/-- C10: the quarantine destination chosen by move_to_quarantine is
exactly QUARANTINE_DIR joined with the base name of the path, so it
depends only on the base name; quarantining a second path with the same
base name targets the same destination and its content replaces the
first quarantined file. -/
theorem move_to_quarantine_dest_basename :
    (∀ (fs : FS) (p : String),
      (move_to_quarantine fs false p).1 = some (pathJoin QUARANTINE_DIR (basename p))) ∧
    (∀ (fs : FS) (p₁ p₂ : String) (c₂ : Nat), basename p₁ = basename p₂ → p₂ ≠ p₁ →
      p₂ ≠ pathJoin QUARANTINE_DIR (basename p₁) → fsGet fs p₂ = some c₂ →
      fsGet (move_to_quarantine (move_to_quarantine fs false p₁).2 false p₂).2
        (pathJoin QUARANTINE_DIR (basename p₁)) = some c₂) := by
  constructor
  · intro fs p
    simp [move_to_quarantine]
  · intro fs p₁ p₂ c₂ hb hne hnd hget
    simp only [move_to_quarantine, Bool.false_eq_true, if_false]
    rw [← hb]
    exact fsGet_fsMove_dst _ _ _ _
      ((fsGet_fsMove_other fs p₁ (pathJoin QUARANTINE_DIR (basename p₁)) p₂ hne hnd).trans hget)

/-- C10 witness: two distinct files named x.mp3 in different directories;
the second quarantine move replaces the first at the shared destination. -/
theorem move_to_quarantine_dest_basename_witness :
    fsGet (move_to_quarantine
        (move_to_quarantine [("/a/x.mp3", 1), ("/b/x.mp3", 2)] false ("/a/x.mp3")).2
        false ("/b/x.mp3")).2
      (pathJoin QUARANTINE_DIR (basename ("/a/x.mp3"))) = some 2 :=
  move_to_quarantine_dest_basename.2 [("/a/x.mp3", 1), ("/b/x.mp3", 2)]
    ("/a/x.mp3") ("/b/x.mp3") 2 (by decide) (by decide) (by decide) (by decide)

/-- C4: whenever repair_file returns no result, the workspace artifact
for the input file is absent afterwards and every other path of the
filesystem — in particular the quarantined source and every
ingestion-directory path — is exactly as before the call. -/
theorem repair_file_failure_frame
    (svc : RepairService) (env : RepairEnv) (fs : FS) (q : String)
    (res : Option String) (fs' : FS)
    (hw : fsGet fs (workPath svc q) = none)
    (hrun : repair_file svc env fs q = (res, fs')) (hfail : res = none) :
    fsGet fs' (workPath svc q) = none ∧
      ∀ r, r ≠ workPath svc q → fsGet fs' r = fsGet fs r := by
  subst hfail
  rw [repair_file] at hrun
  by_cases hden : svc.denoiser = false
  · rw [if_pos hden] at hrun
    have hfs : fs' = fs := (congrArg Prod.snd hrun).symm
    subst hfs
    exact ⟨hw, fun r _ => rfl⟩
  · rw [if_neg hden] at hrun
    by_cases hcond :
        ((reduce_noise fs env.denoise (workPath svc q)).1
          && fsExists (reduce_noise fs env.denoise (workPath svc q)).2 (workPath svc q)) = true
    · rw [if_pos hcond] at hrun
      by_cases hmv : env.move_ok
      · rw [if_pos hmv] at hrun
        exact absurd (congrArg Prod.fst hrun) (by simp)
      · rw [if_neg hmv] at hrun
        have hfs : fs' = fsRemove (reduce_noise fs env.denoise (workPath svc q)).2
            (workPath svc q) := (congrArg Prod.snd hrun).symm
        subst hfs
        refine ⟨fsGet_fsRemove_self _ _, fun r hr => ?_⟩
        rw [fsGet_fsRemove_ne _ _ _ hr, reduce_noise]
        by_cases hwr : env.denoise.wrote <;> simp [hwr, fsGet_fsSet_ne _ _ _ _ hr]
    · rw [if_neg hcond] at hrun
      have hfs : fs' = fsRemove (reduce_noise fs env.denoise (workPath svc q)).2
          (workPath svc q) := (congrArg Prod.snd hrun).symm
      subst hfs
      refine ⟨fsGet_fsRemove_self _ _, fun r hr => ?_⟩
      rw [fsGet_fsRemove_ne _ _ _ hr, reduce_noise]
      by_cases hwr : env.denoise.wrote <;> simp [hwr, fsGet_fsSet_ne _ _ _ _ hr]

/-- C4 witness: a denoiser failure that still wrote a partial artifact;
the artifact is gone and the quarantined source is untouched. -/
theorem repair_file_failure_frame_witness :
    fsGet [("/project/quarantine/x.mp3", 1)]
        (workPath (main_repair_service true) ("/project/quarantine/x.mp3")) = none ∧
    fsGet [("/project/quarantine/x.mp3", 1)] ("/project/quarantine/x.mp3")
      = fsGet [("/project/quarantine/x.mp3", 1)] ("/project/quarantine/x.mp3") := by
  refine ⟨?_, ?_⟩
  · exact (repair_file_failure_frame (main_repair_service true) ⟨⟨false, true, 5⟩, true⟩
      [("/project/quarantine/x.mp3", 1)] ("/project/quarantine/x.mp3") none
      [("/project/quarantine/x.mp3", 1)] (by decide) (by decide) rfl).1
  · exact (repair_file_failure_frame (main_repair_service true) ⟨⟨false, true, 5⟩, true⟩
      [("/project/quarantine/x.mp3", 1)] ("/project/quarantine/x.mp3") none
      [("/project/quarantine/x.mp3", 1)] (by decide) (by decide) rfl).2
      ("/project/quarantine/x.mp3") (by decide)

/-- C7 counterexample: a handler call that loses the creation race
(raceInsert true, so add_result hits the UNIQUE constraint and the
IntegrityError is silently swallowed) does not abort: the same call goes
on to set repair_status to NEEDED and to move the file into quarantine. -/
theorem lost_race_does_not_abort :
    (process_file ⟨none⟩
        ⟨⟨some (), Except.ok (9/10)⟩, true, true, false, ⟨⟨true, true, 7⟩, true⟩⟩
        ⟨[], [("/project/downloads/noisy.mp3", 3)]⟩ ("/project/downloads/noisy.mp3")).toOption.map
        (fun s => (dbRepairStatus s.db ("/project/downloads/noisy.mp3"),
          fsGet s.fs (pathJoin QUARANTINE_DIR (basename ("/project/downloads/noisy.mp3")))))
      = some (some ("NEEDED"), some 3) := by
  rw [process_file_dirty_eq ⟨none⟩
    ⟨⟨some (), Except.ok (9/10)⟩, true, true, false, ⟨⟨true, true, 7⟩, true⟩⟩
    ⟨[], [("/project/downloads/noisy.mp3", 3)]⟩ ("/project/downloads/noisy.mp3") (9/10)
    rfl rfl (by norm_num [NOISE_THRESHOLD])]
  rfl

/-- C7 amended: losing the creation race changes nothing at all about the
call: process_file with the racing insert is equal, state for state, to
process_file without it — the handler proceeds with the full decision
logic (status updates, quarantine, repair) either way, and the only early
return is the initial is_scanned check. -/
theorem lost_race_same_as_no_race (h : Handler) (env : ScanEnv) (s : SysState) (p : String) :
    process_file h { env with raceInsert := true } s p
      = process_file h { env with raceInsert := false } s p := by
  by_cases hs : is_scanned s.db p = true
  · rw [process_file_scanned h _ s p hs, process_file_scanned h _ s p hs]
  · have hs' : is_scanned s.db p = false := by simpa using hs
    rcases hp : predict env.predictEnv with e | score
    · rw [process_file_error_eq h { env with raceInsert := true } s p e hs' hp,
          process_file_error_eq h { env with raceInsert := false } s p e hs' hp]
    · by_cases hc : score < NOISE_THRESHOLD
      · rw [process_file_clean_eq h { env with raceInsert := true } s p score hs' hp hc,
            process_file_clean_eq h { env with raceInsert := false } s p score hs' hp hc]
        rfl
      · rw [process_file_dirty_eq h { env with raceInsert := true } s p score hs' hp hc,
            process_file_dirty_eq h { env with raceInsert := false } s p score hs' hp hc]
        rfl

/-- C8: when the move to quarantine raises, process_file still returns
normally (no exception reaches the watcher loop), the filesystem is
completely unchanged (the file stays in the ingestion directory and no
repair artifacts appear), and the record ends with repair_status NEEDED
after the single NEEDED update — no repair attempt is recorded. -/
theorem quarantine_exception_keeps_needed
    (h : Handler) (env : ScanEnv) (s : SysState) (p : String) (score : ℚ)
    (hs : is_scanned s.db p = false)
    (hp : predict env.predictEnv = Except.ok score)
    (hc : ¬ score < NOISE_THRESHOLD)
    (hq : env.quarantineRaises = true) :
    process_file h env s p
      = Except.ok ⟨update_repair_status (add_result s.db p false score) p ("NEEDED"), s.fs⟩ := by
  rw [process_file_dirty_eq h env s p score hs hp hc, dirty_branch]
  simp [move_to_quarantine, hq]

/-- C8 witness: concrete dirty file whose quarantine move raises. -/
theorem quarantine_exception_keeps_needed_witness :
    process_file ⟨some (main_repair_service true)⟩
        ⟨⟨some (), Except.ok (9/10)⟩, false, true, true, ⟨⟨true, true, 7⟩, true⟩⟩
        ⟨[], [("/project/downloads/noisy.mp3", 3)]⟩ ("/project/downloads/noisy.mp3")
      = Except.ok ⟨update_repair_status
          (add_result [] ("/project/downloads/noisy.mp3") false (9/10))
          ("/project/downloads/noisy.mp3") ("NEEDED"),
        [("/project/downloads/noisy.mp3", 3)]⟩ :=
  quarantine_exception_keeps_needed ⟨some (main_repair_service true)⟩
    ⟨⟨some (), Except.ok (9/10)⟩, false, true, true, ⟨⟨true, true, 7⟩, true⟩⟩
    ⟨[], [("/project/downloads/noisy.mp3", 3)]⟩ ("/project/downloads/noisy.mp3") (9/10)
    rfl rfl (by norm_num [NOISE_THRESHOLD]) rfl

/-- C1 counterexample: when preprocessing succeeds but the interpreter
chain itself raises, predict propagates the exception to the caller
instead of returning the fail-safe 1.0 — the claimed never-raise
behaviour is false for internal scoring exceptions. -/
theorem predict_interpreter_exception_propagates :
    predict ⟨some (), Except.error ()⟩ = Except.error () := rfl

/-- C1 amended: when the audio cannot be loaded or preprocessed
(preprocess returns None), predict returns exactly 1.0 without raising,
and the record that process_file then creates has is_clean false and
noise_score 1; an exception raised inside the interpreter invocation
itself, however, propagates to the caller. -/
theorem predict_failsafe_on_preprocess_failure
    (h : Handler) (env : ScanEnv) (s : SysState) (p : String)
    (hpre : env.predictEnv.preprocessResult = none)
    (hs : is_scanned s.db p = false) :
    predict env.predictEnv = Except.ok 1 ∧
    (process_file h env s p).toOption.map
        (fun s₁ => (findRecord s₁.db p).map (fun r => (r.is_clean, r.noise_score)))
      = some (some (false, 1)) := by
  have hp : predict env.predictEnv = Except.ok 1 := by
    rw [predict, hpre]
  refine ⟨hp, ?_⟩
  have hc : ¬ (1 : ℚ) < NOISE_THRESHOLD := by norm_num [NOISE_THRESHOLD]
  rw [process_file_dirty_eq h env s p 1 hs hp hc]
  rcases findRecord_dirty_branch h env (add_result s.db p false 1) s.fs p
      (freshRecord p false 1) (findRecord_add_result_fresh s.db p false 1 hs)
    with hf | hf | hf <;>
    simp [Except.toOption, hf, freshRecord]

/-- C1 witness: a file whose preprocessing fails, in an empty ledger. -/
theorem predict_failsafe_on_preprocess_failure_witness :
    predict (⟨none, Except.error ()⟩ : PredictEnv) = Except.ok 1 ∧
    (process_file ⟨none⟩ ⟨⟨none, Except.error ()⟩, false, true, false, ⟨⟨true, true, 0⟩, true⟩⟩
        ⟨[], []⟩ ("/project/downloads/bad.mp3")).toOption.map
        (fun s₁ => (findRecord s₁.db ("/project/downloads/bad.mp3")).map
          (fun r => (r.is_clean, r.noise_score)))
      = some (some (false, 1)) :=
  predict_failsafe_on_preprocess_failure ⟨none⟩
    ⟨⟨none, Except.error ()⟩, false, true, false, ⟨⟨true, true, 0⟩, true⟩⟩ ⟨[], []⟩
    ("/project/downloads/bad.mp3") rfl rfl

/-- C2: if a first process_file call on a not-yet-scanned path returns
normally, the ledger holds exactly one record for that path, and a second
call — under any environment whatsoever, even one whose scorer would
raise or whose quarantine would fail — returns the state unchanged: it
is a no-op after the ledger lookup, with no recomputation, insert,
update, quarantine or repair. -/
theorem handle_idempotent
    (h : Handler) (env₁ env₂ : ScanEnv) (s s₁ : SysState) (p : String)
    (hs : is_scanned s.db p = false)
    (h1 : process_file h env₁ s p = Except.ok s₁) :
    countRecords s₁.db p = 1 ∧ process_file h env₂ s₁ p = Except.ok s₁ := by
  rcases hp : predict env₁.predictEnv with e | score
  · rw [process_file_error_eq h env₁ s p e hs hp] at h1
    exact absurd h1 (by simp)
  · by_cases hc : score < NOISE_THRESHOLD
    · rw [process_file_clean_eq h env₁ s p score hs hp hc] at h1
      have hs1 : s₁ = clean_branch env₁ (add_result s.db p true score) s.fs p :=
        (Except.ok.inj h1).symm
      subst hs1
      constructor
      · rw [countRecords_clean_branch, countRecords_add_result_new s.db p true score hs]
      · exact process_file_scanned h env₂ _ p
          (by rw [is_scanned_clean_branch, is_scanned_add_result_self])
    · rw [process_file_dirty_eq h env₁ s p score hs hp hc] at h1
      have hs1 : s₁ = dirty_branch h env₁ (add_result s.db p false score) s.fs p :=
        (Except.ok.inj h1).symm
      subst hs1
      constructor
      · rw [countRecords_dirty_branch, countRecords_add_result_new s.db p false score hs]
      · exact process_file_scanned h env₂ _ p
          (by rw [is_scanned_dirty_branch, is_scanned_add_result_self])

/-- C2 witness: a clean file handled once; the second call sees an
adversarial environment (raising scorer, failing moves) and is still the
identity. -/
theorem handle_idempotent_witness :
    countRecords (clean_branch
        ⟨⟨some (), Except.ok 0⟩, false, true, false, ⟨⟨true, true, 0⟩, true⟩⟩
        (add_result [] ("/project/downloads/clean.mp3") true 0) []
        ("/project/downloads/clean.mp3")).db ("/project/downloads/clean.mp3") = 1 ∧
    process_file ⟨none⟩ ⟨⟨some (), Except.error ()⟩, false, false, true, ⟨⟨false, false, 0⟩, false⟩⟩
        (clean_branch ⟨⟨some (), Except.ok 0⟩, false, true, false, ⟨⟨true, true, 0⟩, true⟩⟩
          (add_result [] ("/project/downloads/clean.mp3") true 0) []
          ("/project/downloads/clean.mp3"))
        ("/project/downloads/clean.mp3")
      = Except.ok (clean_branch ⟨⟨some (), Except.ok 0⟩, false, true, false, ⟨⟨true, true, 0⟩, true⟩⟩
          (add_result [] ("/project/downloads/clean.mp3") true 0) []
          ("/project/downloads/clean.mp3")) :=
  handle_idempotent ⟨none⟩
    ⟨⟨some (), Except.ok 0⟩, false, true, false, ⟨⟨true, true, 0⟩, true⟩⟩
    ⟨⟨some (), Except.error ()⟩, false, false, true, ⟨⟨false, false, 0⟩, false⟩⟩
    ⟨[], []⟩ _ ("/project/downloads/clean.mp3") rfl
    (process_file_clean_eq ⟨none⟩
      ⟨⟨some (), Except.ok 0⟩, false, true, false, ⟨⟨true, true, 0⟩, true⟩⟩
      ⟨[], []⟩ ("/project/downloads/clean.mp3") 0 rfl rfl (by norm_num [NOISE_THRESHOLD]))

/-- C3 counterexample: ffmpeg missing at construction time (RepairService
built with no denoiser); a dirty file is processed without any exception,
but its repair_status ends as UNFIXABLE, not the claimed NEEDED. -/
theorem repairtool_unavailable_not_needed :
    (process_file ⟨some (main_repair_service false)⟩
        ⟨⟨some (), Except.ok (9/10)⟩, false, true, false, ⟨⟨true, true, 7⟩, true⟩⟩
        ⟨[], [("/project/downloads/noisy.mp3", 3)]⟩ ("/project/downloads/noisy.mp3")).toOption.map
        (fun s => dbRepairStatus s.db ("/project/downloads/noisy.mp3"))
      = some (some ("UNFIXABLE")) := by
  rw [process_file_dirty_eq ⟨some (main_repair_service false)⟩
    ⟨⟨some (), Except.ok (9/10)⟩, false, true, false, ⟨⟨true, true, 7⟩, true⟩⟩
    ⟨[], [("/project/downloads/noisy.mp3", 3)]⟩ ("/project/downloads/noisy.mp3") (9/10)
    rfl rfl (by norm_num [NOISE_THRESHOLD])]
  rfl

/-- C3 amended: when the RepairService exists but its denoiser is
unavailable (the ffmpeg binary was missing at construction time), a dirty
file is still quarantined and no exception escapes to the watcher loop,
and repair_file touches nothing; but the record ends with repair_status
UNFIXABLE rather than staying NEEDED — NEEDED persists only when the
repair service object itself is absent. -/
theorem denoiser_unavailable_quarantine_unfixable
    (svc : RepairService) (env : ScanEnv) (s : SysState) (p : String) (score : ℚ)
    (hden : svc.denoiser = false)
    (hs : is_scanned s.db p = false)
    (hp : predict env.predictEnv = Except.ok score)
    (hc : ¬ score < NOISE_THRESHOLD)
    (hq : env.quarantineRaises = false) :
    process_file ⟨some svc⟩ env s p
      = Except.ok ⟨update_repair_status (update_repair_status
            (add_result s.db p false score) p ("NEEDED")) p ("UNFIXABLE"),
          fsMove s.fs p (pathJoin QUARANTINE_DIR (basename p))⟩ := by
  rw [process_file_dirty_eq ⟨some svc⟩ env s p score hs hp hc, dirty_branch]
  simp [move_to_quarantine, hq, repair_file, hden]

/-- C3 amended witness: the scenario of the counterexample, via the
amended theorem. -/
theorem denoiser_unavailable_quarantine_unfixable_witness :
    process_file ⟨some (main_repair_service false)⟩
        ⟨⟨some (), Except.ok (9/10)⟩, false, true, false, ⟨⟨true, true, 7⟩, true⟩⟩
        ⟨[], [("/project/downloads/noisy.mp3", 3)]⟩ ("/project/downloads/noisy.mp3")
      = Except.ok ⟨update_repair_status (update_repair_status
            (add_result [] ("/project/downloads/noisy.mp3") false (9/10))
            ("/project/downloads/noisy.mp3") ("NEEDED"))
            ("/project/downloads/noisy.mp3") ("UNFIXABLE"),
          fsMove [("/project/downloads/noisy.mp3", 3)] ("/project/downloads/noisy.mp3")
            (pathJoin QUARANTINE_DIR (basename ("/project/downloads/noisy.mp3")))⟩ :=
  denoiser_unavailable_quarantine_unfixable (main_repair_service false)
    ⟨⟨some (), Except.ok (9/10)⟩, false, true, false, ⟨⟨true, true, 7⟩, true⟩⟩
    ⟨[], [("/project/downloads/noisy.mp3", 3)]⟩ ("/project/downloads/noisy.mp3") (9/10)
    rfl rfl rfl (by norm_num [NOISE_THRESHOLD]) rfl

/-- C9: every row inserted by add_result carries metadata_status PENDING
and repair_status NONE regardless of classification, and process_file
preserves the invariant that no row stores NONE in metadata_status and
every dirty row still has metadata_status PENDING — so dirty-path
records keep PENDING forever. -/
theorem insert_defaults_and_metadata_invariant :
    (∀ (db : DB) (p : String) (b : Bool) (sc : ℚ) (r : ScanRecord),
      r ∈ add_result db p b sc →
        r ∈ db ∨ (r.metadata_status = "PENDING" ∧ r.repair_status = "NONE")) ∧
    (∀ (h : Handler) (env : ScanEnv) (s : SysState) (p : String) (s₁ : SysState),
      DBInv s.db → process_file h env s p = Except.ok s₁ → DBInv s₁.db) := by
  constructor
  · intro db p b sc r hr
    rcases mem_add_result db p b sc r hr with hmem | hfresh
    · exact Or.inl hmem
    · subst hfresh
      exact Or.inr ⟨rfl, rfl⟩
  · intro h env s p s₁ hinv h1
    by_cases hs : is_scanned s.db p = true
    · rw [process_file_scanned h env s p hs] at h1
      rw [← Except.ok.inj h1]
      exact hinv
    · have hs' : is_scanned s.db p = false := by simpa using hs
      rcases hp : predict env.predictEnv with e | score
      · rw [process_file_error_eq h env s p e hs' hp] at h1
        exact absurd h1 (by simp)
      · by_cases hc : score < NOISE_THRESHOLD
        · rw [process_file_clean_eq h env s p score hs' hp hc] at h1
          rw [← Except.ok.inj h1, clean_branch_db]
          refine DBInv_update_metadata_ne_none _ _ _ ?_
            (add_result_clean_only s.db p score hs')
            (DBInv_add_result s.db p true score hinv)
          by_cases hm : env.metadataOk
          · rw [if_pos hm]; decide
          · rw [if_neg hm]; decide
        · rw [process_file_dirty_eq h env s p score hs' hp hc] at h1
          rw [← Except.ok.inj h1]
          rcases dirty_branch_db_cases h env (add_result s.db p false score) s.fs p
            with hd | hd | hd <;> rw [hd]
          · exact DBInv_update_repair _ _ _ (DBInv_add_result s.db p false score hinv)
          · exact DBInv_update_repair _ _ _
              (DBInv_update_repair _ _ _ (DBInv_add_result s.db p false score hinv))
          · exact DBInv_update_repair _ _ _
              (DBInv_update_repair _ _ _ (DBInv_add_result s.db p false score hinv))

/-- C9 witness: the invariant holds for the state produced by a concrete
clean-path run from the empty ledger. -/
theorem insert_defaults_and_metadata_invariant_witness :
    DBInv (clean_branch ⟨⟨some (), Except.ok 0⟩, false, true, false, ⟨⟨true, true, 0⟩, true⟩⟩
        (add_result [] ("/project/downloads/clean.mp3") true 0) []
        ("/project/downloads/clean.mp3")).db :=
  insert_defaults_and_metadata_invariant.2 ⟨none⟩
    ⟨⟨some (), Except.ok 0⟩, false, true, false, ⟨⟨true, true, 0⟩, true⟩⟩ ⟨[], []⟩
    ("/project/downloads/clean.mp3")
    (clean_branch ⟨⟨some (), Except.ok 0⟩, false, true, false, ⟨⟨true, true, 0⟩, true⟩⟩
      (add_result [] ("/project/downloads/clean.mp3") true 0) []
      ("/project/downloads/clean.mp3"))
    (fun r hr => absurd hr (List.not_mem_nil r))
    (process_file_clean_eq ⟨none⟩
      ⟨⟨some (), Except.ok 0⟩, false, true, false, ⟨⟨true, true, 0⟩, true⟩⟩
      ⟨[], []⟩ ("/project/downloads/clean.mp3") 0 rfl rfl (by norm_num [NOISE_THRESHOLD]))

/-- C6: for a file at least as noisy as the threshold, with the
main-configured repair service whose denoiser succeeds and whose final
move succeeds: the file lands in the quarantine directory under its base
name, a new file named repaired_ plus the stem plus the fixed .flac
extension appears in the ingestion directory with the denoiser output,
repair_file returns exactly that new path, the original path is gone from
the ingestion directory, and the record ends with repair_status FIXED. -/
theorem dirty_repair_success_pipeline
    (env : ScanEnv) (s : SysState) (p : String) (score : ℚ) (c d : Nat)
    (hs : is_scanned s.db p = false)
    (hp : predict env.predictEnv = Except.ok score)
    (hth : NOISE_THRESHOLD ≤ score)
    (hq : env.quarantineRaises = false)
    (hre : env.repairEnv = ⟨⟨true, true, d⟩, true⟩)
    (hfile : fsGet s.fs p = some c)
    (hp1 : p ≠ "/project/quarantine/" ++ basename p)
    (hp2 : p ≠ "/project/downloads/" ++ work_filename p)
    (hp3 : p ≠ "/project/repair_workspace/" ++ work_filename p) :
    (process_file ⟨some (main_repair_service true)⟩ env s p).toOption.map
        (fun s₁ => (dbRepairStatus s₁.db p,
          fsGet s₁.fs ("/project/quarantine/" ++ basename p),
          fsGet s₁.fs ("/project/downloads/" ++ work_filename p),
          fsGet s₁.fs p))
      = some (some ("FIXED"), some c, some d, none)
    ∧ (repair_file (main_repair_service true) env.repairEnv
          (fsMove s.fs p (pathJoin QUARANTINE_DIR (basename p)))
          (pathJoin QUARANTINE_DIR (basename p))).1
        = some ("/project/downloads/" ++ work_filename p) := by
  have hc : ¬ score < NOISE_THRESHOLD := not_lt.mpr hth
  have hn := basename_no_slash p
  have hbq : basename (pathJoin QUARANTINE_DIR (basename p)) = basename p :=
    basename_pathJoin QUARANTINE_DIR (basename p) (by decide) (by decide) hn
  have hwf : work_filename (pathJoin QUARANTINE_DIR (basename p)) = work_filename p := by
    simp only [work_filename, hbq]
  have hqd : pathJoin QUARANTINE_DIR (basename p)
      = "/project/quarantine/" ++ basename p := quarantine_join (basename p) hn
  have hwp : workPath (main_repair_service true) (pathJoin QUARANTINE_DIR (basename p))
      = "/project/repair_workspace/" ++ work_filename p := by
    rw [main_workPath, hwf]
  have hout : pathJoin (main_repair_service true).output_dir
        (work_filename (pathJoin QUARANTINE_DIR (basename p)))
      = "/project/downloads/" ++ work_filename p := by
    have ho : (main_repair_service true).output_dir = WATCH_DIR := rfl
    rw [ho, hwf, downloads_join _ (work_filename_no_slash p)]
  have i1 : ("/project/quarantine/" ++ basename p : String)
      ≠ "/project/repair_workspace/" ++ work_filename p := quarantine_ne_workspace _ _
  have i2 : ("/project/quarantine/" ++ basename p : String)
      ≠ "/project/downloads/" ++ work_filename p := quarantine_ne_downloads _ _
  have hrf := repair_file_success_eq (main_repair_service true) d
    (fsMove s.fs p (pathJoin QUARANTINE_DIR (basename p)))
    (pathJoin QUARANTINE_DIR (basename p)) rfl
  have hdb : dirty_branch ⟨some (main_repair_service true)⟩ env
        (add_result s.db p false score) s.fs p
      = ⟨update_repair_status (update_repair_status
            (add_result s.db p false score) p ("NEEDED")) p ("FIXED"),
          fsMove (fsSet (fsMove s.fs p (pathJoin QUARANTINE_DIR (basename p)))
              (workPath (main_repair_service true) (pathJoin QUARANTINE_DIR (basename p))) d)
            (workPath (main_repair_service true) (pathJoin QUARANTINE_DIR (basename p)))
            (pathJoin (main_repair_service true).output_dir
              (work_filename (pathJoin QUARANTINE_DIR (basename p))))⟩ := by
    rw [dirty_branch]
    simp only [move_to_quarantine, hq, Bool.false_eq_true, if_false]
    rw [hre, hrf]
  constructor
  · rw [process_file_dirty_eq ⟨some (main_repair_service true)⟩ env s p score hs hp hc, hdb]
    simp only [Except.toOption, Option.map_some]
    refine congrArg some ?_
    dsimp only
    rw [hwp, hout, hqd]
    have e1 : dbRepairStatus (update_repair_status (update_repair_status
          (add_result s.db p false score) p ("NEEDED")) p ("FIXED")) p
        = some ("FIXED") := by
      rw [dbRepairStatus, findRecord_update_repair_self, findRecord_update_repair_self,
        findRecord_add_result_fresh s.db p false score hs]
      rfl
    have e2 : fsGet (fsMove (fsSet (fsMove s.fs p ("/project/quarantine/" ++ basename p))
          ("/project/repair_workspace/" ++ work_filename p) d)
          ("/project/repair_workspace/" ++ work_filename p)
          ("/project/downloads/" ++ work_filename p))
        ("/project/quarantine/" ++ basename p) = some c := by
      rw [fsGet_fsMove_other _ _ _ _ i1 i2, fsGet_fsSet_ne _ _ _ _ i1]
      exact fsGet_fsMove_dst s.fs p _ c hfile
    have e3 : fsGet (fsMove (fsSet (fsMove s.fs p ("/project/quarantine/" ++ basename p))
          ("/project/repair_workspace/" ++ work_filename p) d)
          ("/project/repair_workspace/" ++ work_filename p)
          ("/project/downloads/" ++ work_filename p))
        ("/project/downloads/" ++ work_filename p) = some d :=
      fsGet_fsMove_dst _ _ _ d (fsGet_fsSet_self _ _ d)
    have e4 : fsGet (fsMove (fsSet (fsMove s.fs p ("/project/quarantine/" ++ basename p))
          ("/project/repair_workspace/" ++ work_filename p) d)
          ("/project/repair_workspace/" ++ work_filename p)
          ("/project/downloads/" ++ work_filename p)) p = none := by
      rw [fsGet_fsMove_other _ _ _ _ hp3 hp2, fsGet_fsSet_ne _ _ _ _ hp3]
      exact fsGet_fsMove_src s.fs p _ hp1
    rw [e1, e2, e3, e4]
  · rw [hre, hrf]
    exact congrArg some hout

/-- C6 witness: a concrete dirty file in the ingestion directory repaired
end to end. -/
theorem dirty_repair_success_pipeline_witness :
    (process_file ⟨some (main_repair_service true)⟩
        ⟨⟨some (), Except.ok (9/10)⟩, false, true, false, ⟨⟨true, true, 7⟩, true⟩⟩
        ⟨[], [("/project/downloads/noisy.mp3", 3)]⟩ ("/project/downloads/noisy.mp3")).toOption.map
        (fun s₁ => (dbRepairStatus s₁.db ("/project/downloads/noisy.mp3"),
          fsGet s₁.fs ("/project/quarantine/" ++ basename ("/project/downloads/noisy.mp3")),
          fsGet s₁.fs ("/project/downloads/" ++ work_filename ("/project/downloads/noisy.mp3")),
          fsGet s₁.fs ("/project/downloads/noisy.mp3")))
      = some (some ("FIXED"), some 3, some 7, none)
    ∧ (repair_file (main_repair_service true)
          (⟨⟨some (), Except.ok (9/10)⟩, false, true, false, ⟨⟨true, true, 7⟩, true⟩⟩ : ScanEnv).repairEnv
          (fsMove [("/project/downloads/noisy.mp3", 3)] ("/project/downloads/noisy.mp3")
            (pathJoin QUARANTINE_DIR (basename ("/project/downloads/noisy.mp3"))))
          (pathJoin QUARANTINE_DIR (basename ("/project/downloads/noisy.mp3")))).1
        = some ("/project/downloads/" ++ work_filename ("/project/downloads/noisy.mp3")) :=
  dirty_repair_success_pipeline
    ⟨⟨some (), Except.ok (9/10)⟩, false, true, false, ⟨⟨true, true, 7⟩, true⟩⟩
    ⟨[], [("/project/downloads/noisy.mp3", 3)]⟩ ("/project/downloads/noisy.mp3") (9/10) 3 7
    rfl rfl (by norm_num [NOISE_THRESHOLD]) rfl rfl (by decide)
    (by decide) (by decide) (by decide)

end AudioNAS
